import Mathlib

/-!
Shallow embedding of the core of qbittorrent-gluetun-port-sync
(src/health.py, src/sync.py), for checking the specification's claims.

Collaborator calls (the Gluetun control-server client and the qBittorrent
Web-API client, src/gluetun.py and src/qbittorrent.py) are modelled by the
result values they return: both clients catch every transport exception and
return a result dataclass `(success, port, error, is_auth_error)`, so a
reconcile cycle is a pure function of the sequence of results it consumes.
Sleeps (`time.sleep`) and log lines have no effect on the values computed and
are not modelled, with one exception: the final warning log of
`PortSync.sync_port` reads the loop-local variable `verify_result`, which is
unbound when the verification loop ran zero iterations; that read raises at
runtime, so the cycle's result is modelled as possibly-raising.
-/

/-- Result of one collaborator call, mirroring the `GluetunResult` /
`QBittorrentResult` dataclasses: `success`, optional `port`, optional `error`
message, and the `is_auth_error` flag. -/
structure QueryResult where
  success : Bool
  port : Option Nat := none
  error : Option String := none
  is_auth_error : Bool := false
deriving DecidableEq, Repr

/-- The `HealthState` record of src/health.py: `_healthy`, `_reason`,
`_gluetun_ok`, `_qbittorrent_ok`.  The lock only serialises accesses and does
not affect the values, so the embedding is the plain record. -/
structure HealthState where
  healthy : Bool
  reason : String
  gluetun_ok : Bool
  qbittorrent_ok : Bool
deriving DecidableEq, Repr

/-- `HealthState.__init__`: healthy=False, reason="Starting up", both service
flags False. -/
def HealthState.init : HealthState :=
  { healthy := false, reason := "Starting up", gluetun_ok := false,
    qbittorrent_ok := false }

/-- `HealthState.set_healthy`: overwrite `_healthy` and `_reason`, leaving the
two service flags untouched. -/
def HealthState.set_healthy (s : HealthState) (healthy : Bool) (reason : String) :
    HealthState :=
  { s with healthy := healthy, reason := reason }

/-- `HealthState.set_service_status`: store the two flags, then recompute
`_healthy` and `_reason` from them: healthy with empty reason when both are
ok, else unhealthy with the per-service "... unreachable" messages joined by
", " (Gluetun first, as in the Python list construction). -/
def HealthState.set_service_status (s : HealthState) (gluetun_ok qbittorrent_ok : Bool) :
    HealthState :=
  if gluetun_ok && qbittorrent_ok then
    { s with
      gluetun_ok := gluetun_ok, qbittorrent_ok := qbittorrent_ok,
      healthy := true, reason := "" }
  else
    { s with
      gluetun_ok := gluetun_ok, qbittorrent_ok := qbittorrent_ok,
      healthy := false,
      reason := String.intercalate ", "
        ((if gluetun_ok then [] else ["Gluetun unreachable"]) ++
          (if qbittorrent_ok then [] else ["qBittorrent unreachable"])) }

/-- The configuration fields of src/config.py that the orchestrator's control
flow depends on.  The remaining fields (URLs, credentials, the various sleep
durations, log level, health port) affect only real time, transport and
logging, none of which changes the values the claims are about.  `validate`
does not constrain either attempt count, so any natural number is a legal
value (`int(os.environ.get(...))` merely parses). -/
structure Config where
  startup_max_attempts : Nat
  verify_max_attempts : Nat
deriving DecidableEq, Repr

/-- The collaborator results one reconcile cycle can consume, in call order:
the Gluetun `get_forwarded_port` result, the qBittorrent `get_listen_port`
result, the `set_listen_port` result (its value is only logged by the cycle,
never branched on), and the verification re-reads, indexed by attempt number
(1-based, as in `range(1, verify_max_attempts + 1)`). -/
structure CycleEnv where
  gluetun : QueryResult
  qbt_read : QueryResult
  qbt_write : QueryResult
  verify_read : Nat → QueryResult

/-- Outcome of one reconcile cycle: a returned boolean, or an exception
escaping `sync_port`. -/
inductive CycleResult where
  | ret (b : Bool)
  | exn (msg : String)
deriving DecidableEq, Repr

/-- Observable trace of one reconcile cycle: the returned value (or escaped
exception), the health state after the cycle, whether the client was read,
how many write calls and how many verification reads were issued. -/
structure CycleOut where
  result : CycleResult
  health : HealthState
  client_read : Bool
  write_count : Nat
  verify_reads : Nat
deriving Repr

/-- Python's f-string rendering of an `Optional[str]`: `None` prints as
"None". -/
def optErrStr : Option String → String
  | none => "None"
  | some s => s

/-- Result of the verification loop of `sync_port`: whether some read matched
the target, how many reads were performed, and the last read's result
(`none` exactly when the loop body never ran, in which case the Python local
`verify_result` is unbound). -/
structure VerifyOut where
  matched : Bool
  reads : Nat
  last : Option QueryResult
deriving DecidableEq, Repr

/-- The verification loop of `sync_port` (src/sync.py lines 147-164):
for each attempt, re-read the client's port; a failed read is skipped; a
successful read equal to the target returns success immediately; otherwise
continue.  `attempt` is the 1-based index of the next attempt, the second
argument the number of attempts remaining. -/
def verifyLoop (reads_f : Nat → QueryResult) (target : Nat) :
    Nat → Nat → VerifyOut
  | _, 0 => { matched := false, reads := 0, last := none }
  | attempt, Nat.succ k =>
    let r := reads_f attempt
    if r.success = true ∧ r.port = some target then
      { matched := true, reads := 1, last := some r }
    else
      let rest := verifyLoop reads_f target (attempt + 1) k
      { matched := rest.matched, reads := rest.reads + 1,
        last := some (rest.last.getD r) }

/-- The message of the exception raised when the final warning log of
`sync_port` reads the unbound loop variable `verify_result`. -/
def unboundLocalMsg : String :=
  "UnboundLocalError: local variable referenced before assignment"

/-- The tail of `sync_port` after a port mismatch (src/sync.py lines
135-170): issue the write (whose result is only logged — the code reaches
verification regardless of `update_result.success`), run the verification
loop, and return its outcome.  When the loop ran zero iterations the final
warning log references the unbound local `verify_result`, raising out of the
cycle. -/
def write_and_verify (cfg : Config) (env : CycleEnv) (h1 : HealthState)
    (target : Nat) : CycleOut :=
  let v := verifyLoop env.verify_read target 1 cfg.verify_max_attempts
  if v.matched = true then
    { result := CycleResult.ret true, health := h1, client_read := true,
      write_count := 1, verify_reads := v.reads }
  else
    match v.last with
    | some _ =>
      { result := CycleResult.ret false, health := h1, client_read := true,
        write_count := 1, verify_reads := v.reads }
    | none =>
      { result := CycleResult.exn unboundLocalMsg, health := h1,
        client_read := true, write_count := 1, verify_reads := v.reads }

/-- `PortSync.sync_port` (src/sync.py lines 89-170), one reconcile cycle:
query Gluetun (auth error → `set_healthy` override and fail; other failure →
gateway unreachable and fail; no port → both reachable and succeed); query
qBittorrent (auth error → override and fail; other failure → client
unreachable and fail); mark both reachable; if the ports already agree,
succeed without writing; otherwise write and verify. -/
def sync_port (cfg : Config) (env : CycleEnv) (h : HealthState) : CycleOut :=
  let g := env.gluetun
  if g.is_auth_error = true then
    { result := CycleResult.ret false,
      health := h.set_healthy false ("Gluetun auth error: " ++ optErrStr g.error),
      client_read := false, write_count := 0, verify_reads := 0 }
  else if g.success = false then
    { result := CycleResult.ret false,
      health := h.set_service_status false true,
      client_read := false, write_count := 0, verify_reads := 0 }
  else
    match g.port with
    | none =>
      { result := CycleResult.ret true,
        health := h.set_service_status true true,
        client_read := false, write_count := 0, verify_reads := 0 }
    | some gluetun_port =>
      let q := env.qbt_read
      if q.is_auth_error = true then
        { result := CycleResult.ret false,
          health := h.set_healthy false
            ("qBittorrent auth error: " ++ optErrStr q.error),
          client_read := true, write_count := 0, verify_reads := 0 }
      else if q.success = false then
        { result := CycleResult.ret false,
          health := h.set_service_status true false,
          client_read := true, write_count := 0, verify_reads := 0 }
      else
        let h1 := h.set_service_status true true
        if q.port = some gluetun_port then
          { result := CycleResult.ret true, health := h1, client_read := true,
            write_count := 0, verify_reads := 0 }
        else
          write_and_verify cfg env h1 gluetun_port

/-- Which collaborator a startup probe targeted. -/
inductive Service where
  | gateway
  | client
deriving DecidableEq, Repr

/-- One readiness probe issued by the startup gate: the attempt number it
belongs to, the collaborator probed, and the result returned. -/
structure Probe where
  attempt : Nat
  service : Service
  result : QueryResult
deriving DecidableEq, Repr

/-- Outcome of the startup gate: the returned boolean, the probes issued in
order, and the health state afterwards. -/
structure WaitOut where
  ready : Bool
  probes : List Probe
  health : HealthState
deriving Repr

/-- The loop body of `PortSync.wait_for_services` (src/sync.py lines 37-87).
`g` and `q` give each collaborator's `check_ready` result, indexed by the
attempt at which it would be issued (at most one call per collaborator per
attempt).  An already-ready side is skipped; an auth error aborts with
failure at once; when both sides are ready the gate records both services
reachable and returns success; an exhausted budget returns failure.  The
first argument is the remaining attempt budget, the second the 1-based
number of the current attempt. -/
def waitGo (g q : Nat → QueryResult) (hs : HealthState) :
    Nat → Nat → Bool → Bool → WaitOut
  | 0, _, _, _ => { ready := false, probes := [], health := hs }
  | Nat.succ fuel, attempt, gr, qr =>
    let gres := g attempt
    let gprobes : List Probe :=
      if gr = true then []
      else [{ attempt := attempt, service := Service.gateway, result := gres }]
    if gr = false ∧ gres.is_auth_error = true then
      { ready := false, probes := gprobes, health := hs }
    else
      let gr2 := gr || gres.success
      let qres := q attempt
      let qprobes : List Probe :=
        if qr = true then []
        else [{ attempt := attempt, service := Service.client, result := qres }]
      if qr = false ∧ qres.is_auth_error = true then
        { ready := false, probes := gprobes ++ qprobes, health := hs }
      else
        let qr2 := qr || qres.success
        if gr2 && qr2 then
          { ready := true, probes := gprobes ++ qprobes,
            health := hs.set_service_status true true }
        else
          let rest := waitGo g q hs fuel (attempt + 1) gr2 qr2
          { ready := rest.ready, probes := gprobes ++ qprobes ++ rest.probes,
            health := rest.health }

/-- `PortSync.wait_for_services`: run the gate loop with the full
`startup_max_attempts` budget, starting at attempt 1 with neither side
ready. -/
def wait_for_services (g q : Nat → QueryResult) (hs : HealthState)
    (cfg : Config) : WaitOut :=
  waitGo g q hs cfg.startup_max_attempts 1 false false

/-- One mutating call on the shared `HealthState`, as issued by the
orchestrator: either of its two write operations, with arbitrary
arguments. -/
inductive HealthCall where
  | set_healthy (healthy : Bool) (reason : String)
  | set_service_status (gluetun_ok qbittorrent_ok : Bool)
deriving DecidableEq, Repr

/-- Apply one call to the health state. -/
def applyCall (s : HealthState) : HealthCall → HealthState
  | HealthCall.set_healthy b r => s.set_healthy b r
  | HealthCall.set_service_status a b => s.set_service_status a b

/-- The health state after a sequence of calls, starting from the initial
state of `HealthState.__init__`. -/
def runCalls (cs : List HealthCall) : HealthState :=
  cs.foldl applyCall HealthState.init

/-- A `set_healthy` call that keeps the intended reading of the record
(healthy implies empty reason): it either reports unhealthy, or carries an
empty reason.  Both calls the orchestrator actually issues pass
healthy=False. -/
def okCall : HealthCall → Prop
  | HealthCall.set_healthy b r => b = false ∨ r = ""
  | HealthCall.set_service_status _ _ => True

instance decOkCall (c : HealthCall) : Decidable (okCall c) :=
  match c with
  | HealthCall.set_healthy b r =>
    (inferInstance : Decidable (b = false ∨ r = ""))
  | HealthCall.set_service_status _ _ => (inferInstance : Decidable True)

/-- Occurrence check on character lists: the needle occurs as a contiguous
run of the haystack. -/
def subList (needle : List Char) : List Char → Bool
  | [] => needle.isPrefixOf []
  | c :: t => needle.isPrefixOf (c :: t) || subList needle t

/-- The string `needle` occurs inside the string `hay`. -/
def strMentions (needle hay : String) : Bool :=
  subList needle.data hay.data

/-- Collaborator result builder: success with a forwarded/listen port. -/
def okPortR (p : Nat) : QueryResult :=
  { success := true, port := some p }

/-- Collaborator result: a transient failure (e.g. a timeout). -/
def transientR : QueryResult :=
  { success := false, error := some "Request timed out" }

/-- Collaborator result: an authentication failure. -/
def authR : QueryResult :=
  { success := false, error := some "Authentication failed",
    is_auth_error := true }

/-- Gluetun result: reachable, but no port currently forwarded. -/
def noPortR : QueryResult :=
  { success := true, port := none,
    error := some "No port forwarded (VPN may be disconnected)" }

/-- The default configuration values of src/config.py. -/
def cfgDefault : Config :=
  { startup_max_attempts := 60, verify_max_attempts := 3 }

/-- A legal configuration with VERIFY_MAX_ATTEMPTS=0 (config validation does
not reject it). -/
def cfgZeroVerify : Config :=
  { startup_max_attempts := 60, verify_max_attempts := 0 }

/-- Cycle environment builder. -/
def mkEnv (g q w : QueryResult) (v : Nat → QueryResult) : CycleEnv :=
  { gluetun := g, qbt_read := q, qbt_write := w, verify_read := v }

lemma sync_port_gluetun_auth (cfg : Config) (env : CycleEnv) (h : HealthState)
    (ha : env.gluetun.is_auth_error = true) :
    sync_port cfg env h =
      { result := CycleResult.ret false,
        health := h.set_healthy false
          ("Gluetun auth error: " ++ optErrStr env.gluetun.error),
        client_read := false, write_count := 0, verify_reads := 0 } := by
  simp [sync_port, ha]

lemma sync_port_gluetun_transient (cfg : Config) (env : CycleEnv)
    (h : HealthState) (ha : env.gluetun.is_auth_error = false)
    (hs : env.gluetun.success = false) :
    sync_port cfg env h =
      { result := CycleResult.ret false,
        health := h.set_service_status false true,
        client_read := false, write_count := 0, verify_reads := 0 } := by
  simp [sync_port, ha, hs]

lemma sync_port_gluetun_no_port (cfg : Config) (env : CycleEnv)
    (h : HealthState) (ha : env.gluetun.is_auth_error = false)
    (hs : env.gluetun.success = true) (hp : env.gluetun.port = none) :
    sync_port cfg env h =
      { result := CycleResult.ret true,
        health := h.set_service_status true true,
        client_read := false, write_count := 0, verify_reads := 0 } := by
  simp [sync_port, ha, hs, hp]

lemma sync_port_qbt_auth (cfg : Config) (env : CycleEnv) (h : HealthState)
    (p : Nat) (ha : env.gluetun.is_auth_error = false)
    (hs : env.gluetun.success = true) (hp : env.gluetun.port = some p)
    (qa : env.qbt_read.is_auth_error = true) :
    sync_port cfg env h =
      { result := CycleResult.ret false,
        health := h.set_healthy false
          ("qBittorrent auth error: " ++ optErrStr env.qbt_read.error),
        client_read := true, write_count := 0, verify_reads := 0 } := by
  simp [sync_port, ha, hs, hp, qa]

lemma sync_port_qbt_transient (cfg : Config) (env : CycleEnv) (h : HealthState)
    (p : Nat) (ha : env.gluetun.is_auth_error = false)
    (hs : env.gluetun.success = true) (hp : env.gluetun.port = some p)
    (qa : env.qbt_read.is_auth_error = false)
    (qs : env.qbt_read.success = false) :
    sync_port cfg env h =
      { result := CycleResult.ret false,
        health := h.set_service_status true false,
        client_read := true, write_count := 0, verify_reads := 0 } := by
  simp [sync_port, ha, hs, hp, qa, qs]

lemma sync_port_same_port (cfg : Config) (env : CycleEnv) (h : HealthState)
    (p : Nat) (ha : env.gluetun.is_auth_error = false)
    (hs : env.gluetun.success = true) (hp : env.gluetun.port = some p)
    (qa : env.qbt_read.is_auth_error = false)
    (qs : env.qbt_read.success = true) (qp : env.qbt_read.port = some p) :
    sync_port cfg env h =
      { result := CycleResult.ret true,
        health := h.set_service_status true true,
        client_read := true, write_count := 0, verify_reads := 0 } := by
  simp [sync_port, ha, hs, hp, qa, qs, qp]

lemma sync_port_mismatch (cfg : Config) (env : CycleEnv) (h : HealthState)
    (p : Nat) (ha : env.gluetun.is_auth_error = false)
    (hs : env.gluetun.success = true) (hp : env.gluetun.port = some p)
    (qa : env.qbt_read.is_auth_error = false)
    (qs : env.qbt_read.success = true) (qp : ¬ env.qbt_read.port = some p) :
    sync_port cfg env h =
      write_and_verify cfg env (h.set_service_status true true) p := by
  simp [sync_port, ha, hs, hp, qa, qs, qp]

lemma verifyLoop_matched_iff (f : Nat → QueryResult) (t : Nat) :
    ∀ n a, (verifyLoop f t a n).matched = true ↔
      ∃ i, a ≤ i ∧ i < a + n ∧ (f i).success = true ∧ (f i).port = some t := by
  intro n
  induction n with
  | zero =>
    intro a
    simp only [verifyLoop]
    constructor
    · intro hfalse; exact absurd hfalse (by simp)
    · rintro ⟨i, hai, hlt, _, _⟩; omega
  | succ k ih =>
    intro a
    simp only [verifyLoop]
    split
    case isTrue hc =>
      simp only [true_iff]
      exact ⟨a, le_refl a, by omega, hc.1, hc.2⟩
    case isFalse hc =>
      constructor
      · intro hm
        obtain ⟨i, hai, hlt, hsi, hpi⟩ := (ih (a + 1)).1 hm
        exact ⟨i, by omega, by omega, hsi, hpi⟩
      · rintro ⟨i, hai, hlt, hsi, hpi⟩
        apply (ih (a + 1)).2
        refine ⟨i, ?_, by omega, hsi, hpi⟩
        rcases Nat.eq_or_lt_of_le hai with heq | hlt2
        · exact absurd ⟨by rw [← heq] at hsi; exact hsi,
            by rw [← heq] at hpi; exact hpi⟩ hc
        · omega

lemma verifyLoop_reads_pos (f : Nat → QueryResult) (t a k : Nat) :
    1 ≤ (verifyLoop f t a (k + 1)).reads := by
  simp only [verifyLoop]
  split
  · simp
  · simp

lemma verifyLoop_last_isSome (f : Nat → QueryResult) (t a k : Nat) :
    ((verifyLoop f t a (k + 1)).last).isSome = true := by
  simp only [verifyLoop]
  split
  · rfl
  · rfl

lemma write_and_verify_frame (cfg : Config) (env : CycleEnv) (h1 : HealthState)
    (target : Nat) :
    (write_and_verify cfg env h1 target).write_count = 1 ∧
    (write_and_verify cfg env h1 target).health = h1 ∧
    (write_and_verify cfg env h1 target).client_read = true ∧
    (write_and_verify cfg env h1 target).verify_reads =
      (verifyLoop env.verify_read target 1 cfg.verify_max_attempts).reads := by
  simp only [write_and_verify]
  split
  · exact ⟨rfl, rfl, rfl, rfl⟩
  · split
    · exact ⟨rfl, rfl, rfl, rfl⟩
    · exact ⟨rfl, rfl, rfl, rfl⟩

lemma write_and_verify_result (cfg : Config) (env : CycleEnv) (h1 : HealthState)
    (target : Nat) (hm : 1 ≤ cfg.verify_max_attempts) :
    (write_and_verify cfg env h1 target).result =
      CycleResult.ret
        (verifyLoop env.verify_read target 1 cfg.verify_max_attempts).matched := by
  obtain ⟨k, hk⟩ : ∃ k, cfg.verify_max_attempts = k + 1 :=
    ⟨cfg.verify_max_attempts - 1, by omega⟩
  simp only [write_and_verify]
  split
  case isTrue hc => rw [hc]
  case isFalse hc =>
    have hsome := verifyLoop_last_isSome env.verify_read target 1 k
    rw [← hk] at hsome
    split
    case h_1 r hr =>
      have : (verifyLoop env.verify_read target 1 cfg.verify_max_attempts).matched = false :=
        Bool.eq_false_iff.2 hc
      rw [this]
    case h_2 hr => rw [hr] at hsome; exact absurd hsome (by simp)

lemma set_service_status_healthy_inv (s : HealthState) (a b : Bool) :
    (s.set_service_status a b).healthy = true →
    (s.set_service_status a b).reason = "" := by
  unfold HealthState.set_service_status
  split
  · intro _; rfl
  · intro hcontra; exact absurd hcontra (by simp)

lemma applyCall_inv (s : HealthState) (c : HealthCall)
    (_hs : s.healthy = true → s.reason = "") (hc : okCall c) :
    (applyCall s c).healthy = true → (applyCall s c).reason = "" := by
  cases c with
  | set_healthy b r =>
    intro hb
    simp only [applyCall, HealthState.set_healthy] at hb ⊢
    simp only [okCall] at hc
    cases hc with
    | inl hfalse => rw [hfalse] at hb; exact absurd hb (by simp)
    | inr hempty => exact hempty
  | set_service_status a b =>
    exact set_service_status_healthy_inv s a b

lemma runCalls_inv_aux (cs : List HealthCall) : ∀ s : HealthState,
    (s.healthy = true → s.reason = "") → (∀ c ∈ cs, okCall c) →
    ((cs.foldl applyCall s).healthy = true →
      (cs.foldl applyCall s).reason = "") := by
  induction cs with
  | nil => intro s hs _; simpa using hs
  | cons c cs ih =>
    intro s hs hcs
    simp only [List.foldl_cons]
    exact ih (applyCall s c) (applyCall_inv s c hs (hcs c (by simp)))
      (fun d hd => hcs d (by simp [hd]))

lemma sync_port_write_result_irrelevant (cfg : Config) (env : CycleEnv)
    (h : HealthState) (w : QueryResult) :
    sync_port cfg { env with qbt_write := w } h = sync_port cfg env h := rfl

/-- C5: `set_service_status(true, true)` always yields healthy=true with an
empty reason; `set_service_status(false, true)` yields healthy=false with a
reason naming the gateway service ("Gluetun" in the glossary's terms, the
gateway) and not the client ("qBittorrent"); `set_service_status(true,
false)` symmetrically names the client and not the gateway. -/
theorem C5_set_service_status_shape (s : HealthState) :
    ((s.set_service_status true true).healthy = true ∧
      (s.set_service_status true true).reason = "") ∧
    ((s.set_service_status false true).healthy = false ∧
      strMentions "Gluetun" (s.set_service_status false true).reason = true ∧
      strMentions "qBittorrent" (s.set_service_status false true).reason
        = false) ∧
    ((s.set_service_status true false).healthy = false ∧
      strMentions "qBittorrent" (s.set_service_status true false).reason
        = true ∧
      strMentions "Gluetun" (s.set_service_status true false).reason
        = false) :=
  ⟨⟨rfl, rfl⟩, ⟨rfl, rfl, rfl⟩, ⟨rfl, rfl, rfl⟩⟩

/-- C6 (amended): in every state reachable from the initial state
{healthy=false, reason="Starting up"} by `set_service_status` calls with any
arguments and `set_healthy` calls that pass healthy=false or an empty
reason, healthy=true implies the reason is empty.  (Unrestricted
`set_healthy(true, r)` with r nonempty breaks the invariant, see the
counterexample.) -/
theorem C6_reachable_healthy_empty_reason (cs : List HealthCall)
    (hok : ∀ c ∈ cs, okCall c) :
    (runCalls cs).healthy = true → (runCalls cs).reason = "" :=
  runCalls_inv_aux cs HealthState.init (by decide) hok

theorem C6_reachable_healthy_empty_reason_witness :
    (runCalls [HealthCall.set_service_status true true]).reason = "" :=
  C6_reachable_healthy_empty_reason
    [HealthCall.set_service_status true true] (by decide) (by decide)

theorem C6_cex :
    ¬ ((runCalls [HealthCall.set_healthy true "boom"]).healthy = true →
      (runCalls [HealthCall.set_healthy true "boom"]).reason = "") := by
  decide

/-- C1 (amended): a transient gateway failure makes the cycle mark the
gateway unreachable and the client reachable (the code passes the constant
True for the client flag, overwriting its previous value), issue no client
call at all, and return failure. -/
theorem C1_gateway_transient (cfg : Config) (env : CycleEnv) (h : HealthState)
    (ha : env.gluetun.is_auth_error = false)
    (hs : env.gluetun.success = false) :
    (sync_port cfg env h).result = CycleResult.ret false ∧
    (sync_port cfg env h).health = h.set_service_status false true ∧
    (sync_port cfg env h).health.gluetun_ok = false ∧
    (sync_port cfg env h).health.healthy = false ∧
    (sync_port cfg env h).health.qbittorrent_ok = true ∧
    (sync_port cfg env h).client_read = false ∧
    (sync_port cfg env h).write_count = 0 ∧
    (sync_port cfg env h).verify_reads = 0 := by
  rw [sync_port_gluetun_transient cfg env h ha hs]
  exact ⟨rfl, rfl, rfl, rfl, rfl, rfl, rfl, rfl⟩

theorem C1_gateway_transient_witness :
    (sync_port cfgDefault
      (mkEnv transientR (okPortR 12345) (okPortR 12345)
        (fun _ => okPortR 12345)) HealthState.init).result =
      CycleResult.ret false :=
  (C1_gateway_transient cfgDefault
    (mkEnv transientR (okPortR 12345) (okPortR 12345)
      (fun _ => okPortR 12345)) HealthState.init rfl rfl).1

/-- A prior health state in which the client had been marked unreachable. -/
def hClientDown : HealthState :=
  { healthy := false, reason := "qBittorrent unreachable",
    gluetun_ok := true, qbittorrent_ok := false }

theorem C1_cex :
    ¬ ((sync_port cfgDefault
        (mkEnv transientR (okPortR 1) (okPortR 1) (fun _ => okPortR 1))
        hClientDown).health.qbittorrent_ok = hClientDown.qbittorrent_ok) := by
  decide

/-- C4: an AuthFailure from either collaborator makes the cycle report
unhealthy with a reason naming the failing service, return failure with none
of the later collaborator calls issued, and leave both reachability flags
exactly as they were. -/
theorem C4_auth_failure (cfg : Config) (env : CycleEnv) (h : HealthState) :
    (env.gluetun.is_auth_error = true →
      (sync_port cfg env h).result = CycleResult.ret false ∧
      (sync_port cfg env h).health.healthy = false ∧
      (∃ tail, (sync_port cfg env h).health.reason =
        "Gluetun auth error: " ++ tail) ∧
      (sync_port cfg env h).client_read = false ∧
      (sync_port cfg env h).write_count = 0 ∧
      (sync_port cfg env h).verify_reads = 0 ∧
      (sync_port cfg env h).health.gluetun_ok = h.gluetun_ok ∧
      (sync_port cfg env h).health.qbittorrent_ok = h.qbittorrent_ok) ∧
    (∀ p : Nat, env.gluetun.is_auth_error = false →
      env.gluetun.success = true → env.gluetun.port = some p →
      env.qbt_read.is_auth_error = true →
      (sync_port cfg env h).result = CycleResult.ret false ∧
      (sync_port cfg env h).health.healthy = false ∧
      (∃ tail, (sync_port cfg env h).health.reason =
        "qBittorrent auth error: " ++ tail) ∧
      (sync_port cfg env h).write_count = 0 ∧
      (sync_port cfg env h).verify_reads = 0 ∧
      (sync_port cfg env h).health.gluetun_ok = h.gluetun_ok ∧
      (sync_port cfg env h).health.qbittorrent_ok = h.qbittorrent_ok) := by
  constructor
  · intro ha
    rw [sync_port_gluetun_auth cfg env h ha]
    exact ⟨rfl, rfl, ⟨optErrStr env.gluetun.error, rfl⟩, rfl, rfl, rfl,
      rfl, rfl⟩
  · intro p ha hs hp qa
    rw [sync_port_qbt_auth cfg env h p ha hs hp qa]
    exact ⟨rfl, rfl, ⟨optErrStr env.qbt_read.error, rfl⟩, rfl, rfl,
      rfl, rfl⟩

theorem C4_auth_failure_witness :
    (sync_port cfgDefault
      (mkEnv authR (okPortR 1) (okPortR 1) (fun _ => okPortR 1))
      HealthState.init).result = CycleResult.ret false :=
  ((C4_auth_failure cfgDefault
    (mkEnv authR (okPortR 1) (okPortR 1) (fun _ => okPortR 1))
    HealthState.init).1 rfl).1

/-- C8: a gateway answer of "no port forwarded" makes the cycle mark both
sides reachable and return success with no client read, no write and no
verification read. -/
theorem C8_no_port_cycle (cfg : Config) (env : CycleEnv) (h : HealthState)
    (ha : env.gluetun.is_auth_error = false)
    (hs : env.gluetun.success = true) (hp : env.gluetun.port = none) :
    (sync_port cfg env h).result = CycleResult.ret true ∧
    (sync_port cfg env h).health = h.set_service_status true true ∧
    (sync_port cfg env h).health.gluetun_ok = true ∧
    (sync_port cfg env h).health.qbittorrent_ok = true ∧
    (sync_port cfg env h).health.healthy = true ∧
    (sync_port cfg env h).client_read = false ∧
    (sync_port cfg env h).write_count = 0 ∧
    (sync_port cfg env h).verify_reads = 0 := by
  rw [sync_port_gluetun_no_port cfg env h ha hs hp]
  exact ⟨rfl, rfl, rfl, rfl, rfl, rfl, rfl, rfl⟩

theorem C8_no_port_cycle_witness :
    (sync_port cfgDefault
      (mkEnv noPortR (okPortR 1) (okPortR 1) (fun _ => okPortR 1))
      HealthState.init).result = CycleResult.ret true :=
  (C8_no_port_cycle cfgDefault
    (mkEnv noPortR (okPortR 1) (okPortR 1) (fun _ => okPortR 1))
    HealthState.init rfl rfl rfl).1

/-- C9: when the gateway's port equals the client's current port the cycle
returns success without writing (and without any verification read). -/
theorem C9_steady_state (cfg : Config) (env : CycleEnv) (h : HealthState)
    (p : Nat)
    (ha : env.gluetun.is_auth_error = false)
    (hs : env.gluetun.success = true) (hp : env.gluetun.port = some p)
    (qa : env.qbt_read.is_auth_error = false)
    (qs : env.qbt_read.success = true) (qp : env.qbt_read.port = some p) :
    (sync_port cfg env h).result = CycleResult.ret true ∧
    (sync_port cfg env h).write_count = 0 ∧
    (sync_port cfg env h).verify_reads = 0 := by
  rw [sync_port_same_port cfg env h p ha hs hp qa qs qp]
  exact ⟨rfl, rfl, rfl⟩

theorem C9_steady_state_witness :
    (sync_port cfgDefault
      (mkEnv (okPortR 6881) (okPortR 6881) (okPortR 6881)
        (fun _ => okPortR 6881)) HealthState.init).write_count = 0 :=
  (C9_steady_state cfgDefault
    (mkEnv (okPortR 6881) (okPortR 6881) (okPortR 6881)
      (fun _ => okPortR 6881)) HealthState.init 6881
    rfl rfl rfl rfl rfl rfl).2.1

/-- C3 (the code, evaluated at the failing input): with
VERIFY_MAX_ATTEMPTS=0 — a value configuration validation accepts — and a
port mismatch, the final warning log of `sync_port` reads the loop-local
`verify_result` that no loop iteration ever bound, so an exception escapes
the cycle instead of a boolean being returned. -/
theorem C3_cycle_raises_on_zero_verify_attempts :
    (sync_port cfgZeroVerify
      (mkEnv (okPortR 54321) (okPortR 6881) (okPortR 54321)
        (fun _ => okPortR 6881)) HealthState.init).result =
      CycleResult.exn unboundLocalMsg := by
  decide

/-- C2 (amended with verifyMaxAttempts ≥ 1): on a port mismatch the cycle
issues exactly one write, follows it with at least one verification read
whatever the write's own result was (the cycle's outcome is independent of
the write's result), and returns success iff some verification read within
`verify_max_attempts` attempts returns the target port. -/
theorem C2_mismatch_write_verify (cfg : Config) (env : CycleEnv)
    (h : HealthState) (p : Nat)
    (ha : env.gluetun.is_auth_error = false)
    (hs : env.gluetun.success = true) (hp : env.gluetun.port = some p)
    (qa : env.qbt_read.is_auth_error = false)
    (qs : env.qbt_read.success = true) (qp : ¬ env.qbt_read.port = some p)
    (hv : 1 ≤ cfg.verify_max_attempts) :
    (sync_port cfg env h).write_count = 1 ∧
    1 ≤ (sync_port cfg env h).verify_reads ∧
    (∀ w : QueryResult,
      sync_port cfg { env with qbt_write := w } h = sync_port cfg env h) ∧
    ((sync_port cfg env h).result = CycleResult.ret true ↔
      ∃ i, 1 ≤ i ∧ i ≤ cfg.verify_max_attempts ∧
        (env.verify_read i).success = true ∧
        (env.verify_read i).port = some p) := by
  obtain ⟨k, hk⟩ : ∃ k, cfg.verify_max_attempts = k + 1 :=
    ⟨cfg.verify_max_attempts - 1, by omega⟩
  obtain ⟨hw, hh, hcr, hvr⟩ :=
    write_and_verify_frame cfg env (h.set_service_status true true) p
  refine ⟨?_, ?_, ?_, ?_⟩
  · rw [sync_port_mismatch cfg env h p ha hs hp qa qs qp]
    exact hw
  · rw [sync_port_mismatch cfg env h p ha hs hp qa qs qp, hvr, hk]
    exact verifyLoop_reads_pos env.verify_read p 1 k
  · intro w
    exact sync_port_write_result_irrelevant cfg env h w
  · rw [sync_port_mismatch cfg env h p ha hs hp qa qs qp,
      write_and_verify_result cfg env (h.set_service_status true true) p hv]
    constructor
    · intro hr
      have hm : (verifyLoop env.verify_read p 1
          cfg.verify_max_attempts).matched = true := by
        cases hmm : (verifyLoop env.verify_read p 1
            cfg.verify_max_attempts).matched
        · rw [hmm] at hr; exact absurd hr (by decide)
        · rfl
      obtain ⟨i, h1i, hlt, hsi, hpi⟩ :=
        (verifyLoop_matched_iff env.verify_read p
          cfg.verify_max_attempts 1).1 hm
      exact ⟨i, h1i, by omega, hsi, hpi⟩
    · rintro ⟨i, h1i, hle, hsi, hpi⟩
      have hm := (verifyLoop_matched_iff env.verify_read p
        cfg.verify_max_attempts 1).2 ⟨i, h1i, by omega, hsi, hpi⟩
      rw [hm]

theorem C2_mismatch_write_verify_witness :
    (sync_port cfgDefault
      (mkEnv (okPortR 54321) (okPortR 12345) (okPortR 54321)
        (fun _ => okPortR 54321)) HealthState.init).write_count = 1 :=
  (C2_mismatch_write_verify cfgDefault
    (mkEnv (okPortR 54321) (okPortR 12345) (okPortR 54321)
      (fun _ => okPortR 54321)) HealthState.init 54321
    rfl rfl rfl rfl rfl (by decide) (by decide)).1

theorem C2_cex :
    (sync_port cfgZeroVerify
      (mkEnv (okPortR 54321) (okPortR 12345) (okPortR 54321)
        (fun _ => okPortR 12345)) HealthState.init).write_count = 1 ∧
    ¬ (1 ≤ (sync_port cfgZeroVerify
      (mkEnv (okPortR 54321) (okPortR 12345) (okPortR 54321)
        (fun _ => okPortR 12345)) HealthState.init).verify_reads) := by
  decide

/-- C10 (amended with verifyMaxAttempts ≥ 1): when the verification loop
exhausts every attempt without a match, the cycle returns failure while the
health record stays exactly as the successful client read set it: healthy,
empty reason, both services reachable. -/
theorem C10_verify_exhaustion (cfg : Config) (env : CycleEnv)
    (h : HealthState) (p : Nat)
    (ha : env.gluetun.is_auth_error = false)
    (hs : env.gluetun.success = true) (hp : env.gluetun.port = some p)
    (qa : env.qbt_read.is_auth_error = false)
    (qs : env.qbt_read.success = true) (qp : ¬ env.qbt_read.port = some p)
    (hv : 1 ≤ cfg.verify_max_attempts)
    (hnomatch : ∀ i, 1 ≤ i → i ≤ cfg.verify_max_attempts →
      ¬ ((env.verify_read i).success = true ∧
        (env.verify_read i).port = some p)) :
    (sync_port cfg env h).result = CycleResult.ret false ∧
    (sync_port cfg env h).health = h.set_service_status true true ∧
    (sync_port cfg env h).health.healthy = true ∧
    (sync_port cfg env h).health.gluetun_ok = true ∧
    (sync_port cfg env h).health.qbittorrent_ok = true ∧
    (sync_port cfg env h).health.reason = "" := by
  have hm : (verifyLoop env.verify_read p 1
      cfg.verify_max_attempts).matched = false := by
    cases hmm : (verifyLoop env.verify_read p 1
        cfg.verify_max_attempts).matched
    · rfl
    · obtain ⟨i, h1i, hlt, hsi, hpi⟩ :=
        (verifyLoop_matched_iff env.verify_read p
          cfg.verify_max_attempts 1).1 hmm
      exact absurd ⟨hsi, hpi⟩ (hnomatch i h1i (by omega))
  obtain ⟨hw, hh, hcr, hvr⟩ :=
    write_and_verify_frame cfg env (h.set_service_status true true) p
  rw [sync_port_mismatch cfg env h p ha hs hp qa qs qp]
  refine ⟨?_, hh, ?_, ?_, ?_, ?_⟩
  · rw [write_and_verify_result cfg env (h.set_service_status true true) p hv,
      hm]
  · rw [hh]; exact rfl
  · rw [hh]; exact rfl
  · rw [hh]; exact rfl
  · rw [hh]; exact rfl

theorem C10_verify_exhaustion_witness :
    (sync_port cfgDefault
      (mkEnv (okPortR 54321) (okPortR 12345) (okPortR 54321)
        (fun _ => transientR)) HealthState.init).result =
      CycleResult.ret false :=
  (C10_verify_exhaustion cfgDefault
    (mkEnv (okPortR 54321) (okPortR 12345) (okPortR 54321)
      (fun _ => transientR)) HealthState.init 54321
    rfl rfl rfl rfl rfl (by decide) (by decide)
    (fun i _ _ hc => Bool.noConfusion hc.1)).1

theorem C10_cex :
    ¬ ((sync_port cfgZeroVerify
      (mkEnv (okPortR 51413) (okPortR 12345) (okPortR 51413)
        (fun _ => okPortR 12345)) HealthState.init).result =
      CycleResult.ret false) := by
  decide

lemma waitGo_probe_bounds (g q : Nat → QueryResult) (hs : HealthState) :
    ∀ fuel attempt gr qr p, p ∈ (waitGo g q hs fuel attempt gr qr).probes →
      attempt ≤ p.attempt ∧ p.attempt < attempt + fuel := by
  intro fuel
  induction fuel with
  | zero =>
    intro attempt gr qr p hp
    simp [waitGo] at hp
  | succ k ih =>
    intro attempt gr qr p hp
    simp only [waitGo] at hp
    split at hp
    · simp at hp
      rcases hp with ⟨-, rfl⟩
      refine ⟨Nat.le_refl _, ?_⟩
      show attempt < attempt + (k + 1)
      omega
    · split at hp
      · simp [List.mem_append] at hp
        rcases hp with ⟨-, rfl⟩ | ⟨-, rfl⟩
        all_goals refine ⟨Nat.le_refl _, ?_⟩
        all_goals show attempt < attempt + (k + 1)
        all_goals omega
      · split at hp
        · simp [List.mem_append] at hp
          rcases hp with ⟨-, rfl⟩ | ⟨-, rfl⟩
          all_goals refine ⟨Nat.le_refl _, ?_⟩
          all_goals show attempt < attempt + (k + 1)
          all_goals omega
        · simp [List.mem_append] at hp
          rcases hp with ⟨-, rfl⟩ | ⟨-, rfl⟩ | hp
          · refine ⟨Nat.le_refl _, ?_⟩
            show attempt < attempt + (k + 1)
            omega
          · refine ⟨Nat.le_refl _, ?_⟩
            show attempt < attempt + (k + 1)
            omega
          · obtain ⟨h1, h2⟩ := ih (attempt + 1) _ _ p hp
            exact ⟨by omega, by omega⟩

lemma waitGo_ready_witness (g q : Nat → QueryResult) (hs : HealthState) :
    ∀ fuel attempt gr qr,
      (waitGo g q hs fuel attempt gr qr).ready = true →
      ((gr = true ∨ ∃ p, p ∈ (waitGo g q hs fuel attempt gr qr).probes ∧
          p.service = Service.gateway ∧ p.result.success = true ∧
          p.result.is_auth_error = false) ∧
        (qr = true ∨ ∃ p, p ∈ (waitGo g q hs fuel attempt gr qr).probes ∧
          p.service = Service.client ∧ p.result.success = true ∧
          p.result.is_auth_error = false)) := by
  intro fuel
  induction fuel with
  | zero =>
    intro attempt gr qr hr
    exact absurd hr (by simp [waitGo])
  | succ k ih =>
    intro attempt gr qr
    simp only [waitGo]
    split
    next hg1 =>
      intro hr
      exact absurd hr (by simp)
    next hg1 =>
      split
      next hg2 =>
        intro hr
        exact absurd hr (by simp)
      next hg2 =>
        split
        next hg3 =>
          intro _
          rw [Bool.and_eq_true] at hg3
          constructor
          · cases hgr : gr with
            | true => exact Or.inl rfl
            | false =>
              have hgs : (g attempt).success = true := by
                have h1 := hg3.1
                rw [hgr] at h1
                simpa using h1
              have hgauth : (g attempt).is_auth_error = false := by
                cases hh : (g attempt).is_auth_error
                · rfl
                · exact absurd ⟨hgr, hh⟩ hg1
              refine Or.inr ⟨⟨attempt, Service.gateway, g attempt⟩, ?_, rfl,
                hgs, hgauth⟩
              simp [hgr]
          · cases hqr : qr with
            | true => exact Or.inl rfl
            | false =>
              have hqs : (q attempt).success = true := by
                have h1 := hg3.2
                rw [hqr] at h1
                simpa using h1
              have hqauth : (q attempt).is_auth_error = false := by
                cases hh : (q attempt).is_auth_error
                · rfl
                · exact absurd ⟨hqr, hh⟩ hg2
              refine Or.inr ⟨⟨attempt, Service.client, q attempt⟩, ?_, rfl,
                hqs, hqauth⟩
              simp [hqr]
        next hg3 =>
          intro hr
          have hr2 : (waitGo g q hs k (attempt + 1) (gr || (g attempt).success)
              (qr || (q attempt).success)).ready = true := hr
          obtain ⟨hG, hQ⟩ := ih (attempt + 1) (gr || (g attempt).success)
            (qr || (q attempt).success) hr2
          constructor
          · cases hgr : gr with
            | true => exact Or.inl rfl
            | false =>
              rcases hG with hg2t | ⟨p, hp, hserv, hsucc, hauth⟩
              · have hgs : (g attempt).success = true := by
                  rw [hgr] at hg2t
                  simpa using hg2t
                have hgauth : (g attempt).is_auth_error = false := by
                  cases hh : (g attempt).is_auth_error
                  · rfl
                  · exact absurd ⟨hgr, hh⟩ hg1
                refine Or.inr ⟨⟨attempt, Service.gateway, g attempt⟩, ?_, rfl,
                  hgs, hgauth⟩
                simp [hgr]
              · refine Or.inr ⟨p, ?_, hserv, hsucc, hauth⟩
                rw [hgr] at hp
                simp only [Bool.false_or] at hp
                simp [List.mem_append, hp]
          · cases hqr : qr with
            | true => exact Or.inl rfl
            | false =>
              rcases hQ with hq2t | ⟨p, hp, hserv, hsucc, hauth⟩
              · have hqs : (q attempt).success = true := by
                  rw [hqr] at hq2t
                  simpa using hq2t
                have hqauth : (q attempt).is_auth_error = false := by
                  cases hh : (q attempt).is_auth_error
                  · rfl
                  · exact absurd ⟨hqr, hh⟩ hg2
                refine Or.inr ⟨⟨attempt, Service.client, q attempt⟩, ?_, rfl,
                  hqs, hqauth⟩
                simp [hqr]
              · refine Or.inr ⟨p, ?_, hserv, hsucc, hauth⟩
                rw [hqr] at hp
                simp only [Bool.false_or] at hp
                simp [List.mem_append, hp]

lemma waitGo_auth_last (g q : Nat → QueryResult) (hs : HealthState) :
    ∀ fuel attempt gr qr p,
      p ∈ (waitGo g q hs fuel attempt gr qr).probes →
      p.result.is_auth_error = true →
      (waitGo g q hs fuel attempt gr qr).ready = false ∧
      ∃ pre, (waitGo g q hs fuel attempt gr qr).probes = pre ++ [p] := by
  intro fuel
  induction fuel with
  | zero =>
    intro attempt gr qr p hp
    simp [waitGo] at hp
  | succ k ih =>
    intro attempt gr qr p
    simp only [waitGo]
    split
    next hg1 =>
      intro hp hauth
      refine ⟨rfl, [], ?_⟩
      simp at hp
      simp [hp.1, hp.2]
    next hg1 =>
      split
      next hg2 =>
        intro hp hauth
        refine ⟨rfl, ?_⟩
        simp [List.mem_append, hg2.1] at hp
        rcases hp with ⟨hgr, rfl⟩ | rfl
        · exact absurd ⟨hgr, hauth⟩ hg1
        · exact ⟨if gr = true then []
            else [⟨attempt, Service.gateway, g attempt⟩], by simp [hg2.1]⟩
      next hg2 =>
        split
        next hg3 =>
          intro hp hauth
          simp [List.mem_append] at hp
          rcases hp with ⟨hgr, rfl⟩ | ⟨hqr, rfl⟩
          · exact absurd ⟨hgr, hauth⟩ hg1
          · exact absurd ⟨hqr, hauth⟩ hg2
        next hg3 =>
          intro hp hauth
          simp [List.mem_append] at hp
          rcases hp with ⟨hgr, rfl⟩ | ⟨hqr, rfl⟩ | hp
          · exact absurd ⟨hgr, hauth⟩ hg1
          · exact absurd ⟨hqr, hauth⟩ hg2
          · obtain ⟨hready, pre, hpre⟩ := ih (attempt + 1) _ _ p hp hauth
            refine ⟨hready, (if gr = true then []
              else [⟨attempt, Service.gateway, g attempt⟩]) ++
              ((if qr = true then []
                else [⟨attempt, Service.client, q attempt⟩]) ++ pre), ?_⟩
            simp [hpre, List.append_assoc]

/-- C7: the startup gate returns success only when each collaborator
produced at least one successful (hence non-auth-failure) probe result
within `startup_max_attempts` attempts; and any probe that returns an auth
failure is the last probe the gate issues — the run stops there, before the
attempt budget is exhausted, and the gate returns failure. -/
theorem C7_startup_gate (g q : Nat → QueryResult) (hs : HealthState)
    (cfg : Config) :
    ((wait_for_services g q hs cfg).ready = true →
      (∃ p, p ∈ (wait_for_services g q hs cfg).probes ∧
        p.service = Service.gateway ∧ 1 ≤ p.attempt ∧
        p.attempt ≤ cfg.startup_max_attempts ∧
        p.result.success = true ∧ p.result.is_auth_error = false) ∧
      (∃ p, p ∈ (wait_for_services g q hs cfg).probes ∧
        p.service = Service.client ∧ 1 ≤ p.attempt ∧
        p.attempt ≤ cfg.startup_max_attempts ∧
        p.result.success = true ∧ p.result.is_auth_error = false)) ∧
    (∀ p, p ∈ (wait_for_services g q hs cfg).probes →
      p.result.is_auth_error = true →
      (wait_for_services g q hs cfg).ready = false ∧
      ∃ pre, (wait_for_services g q hs cfg).probes = pre ++ [p]) := by
  unfold wait_for_services
  constructor
  · intro hr
    obtain ⟨hG, hQ⟩ := waitGo_ready_witness g q hs cfg.startup_max_attempts
      1 false false hr
    constructor
    · rcases hG with hfalse | ⟨p, hp, hserv, hsucc, hauth⟩
      · exact absurd hfalse (by simp)
      · obtain ⟨h1, h2⟩ := waitGo_probe_bounds g q hs cfg.startup_max_attempts
          1 false false p hp
        exact ⟨p, hp, hserv, h1, by omega, hsucc, hauth⟩
    · rcases hQ with hfalse | ⟨p, hp, hserv, hsucc, hauth⟩
      · exact absurd hfalse (by simp)
      · obtain ⟨h1, h2⟩ := waitGo_probe_bounds g q hs cfg.startup_max_attempts
          1 false false p hp
        exact ⟨p, hp, hserv, h1, by omega, hsucc, hauth⟩
  · intro p hp hauth
    exact waitGo_auth_last g q hs cfg.startup_max_attempts 1 false false
      p hp hauth

theorem C7_startup_gate_witness :
    ∃ p, p ∈ (wait_for_services (fun _ => okPortR 51820)
        (fun _ => okPortR 6881) HealthState.init cfgDefault).probes ∧
      p.service = Service.gateway ∧ 1 ≤ p.attempt ∧
      p.attempt ≤ cfgDefault.startup_max_attempts ∧
      p.result.success = true ∧ p.result.is_auth_error = false :=
  ((C7_startup_gate (fun _ => okPortR 51820) (fun _ => okPortR 6881)
    HealthState.init cfgDefault).1 (by decide)).1
